import Mathlib

/-!
Shallow embedding of the incident admission pipeline of `DRS_Python_API`:
the service `create_incident` (openAPI_IDC/services/CreateIncidentService.py)
and the correlation helpers `has_open_case_for_account` and
`link_accounts_from_open_cases`
(openAPI_IDC/coreFunctions/DatabaseOparations/CheckAccount.py).

Modelling conventions:
- MongoDB collections are lists of documents; `find({f: v})` is `List.filter`
  on field equality; a query value of `none` matches documents where the
  field is absent (Mongo `null` query semantics, with `null` field values and
  missing fields conflated as `none`).
- Python dict keys that may be absent are `Option` fields; `dict.get(k)`
  returns `none` when the key is absent.
- The outcome of opening the client connection (`MongoClient(...)` plus the
  `ping` round trip) is an explicit parameter `ConnOutcome`: construction may
  fail before `client` is assigned, the ping may fail after `client` is
  assigned, or both may succeed.  An unexpected store exception during the
  query/insert phase is likewise a parameter.
- Each function's result records whether a client was opened and how many
  times `client.close()` ran, mirroring the `finally: if client: client.close()`
  blocks.
- Timestamps (`datetime.now()`) are opaque `Nat` values passed in.
-/

/-- Outcome of the connection setup block: `MongoClient(...)` itself raising
(before `client` is assigned), the `client.admin.command('ping')` round trip
raising (after `client` is assigned), or both succeeding. -/
inductive ConnOutcome where
  | constructFail
  | pingFail
  | ok
deriving DecidableEq, Repr

/-- One entry of the `Link_Accounts` list: a dict `{"Account_Num": ...}`;
the key may be absent in pre-existing entries. -/
structure LinkEntry where
  Account_Num : Option String
deriving DecidableEq, Repr

/-- A document of the `Case_details` collection, with the fields the two
CheckAccount queries touch.  Absent fields are `none`. -/
structure CaseDoc where
  account_no : Option String
  customer_ref : Option String
  case_current_status : Option String
  Account_Num : Option String
deriving DecidableEq, Repr

/-- The incident dict flowing through the pipeline, with the fields the code
reads or writes.  `customer_ref` flattens
`incident_dict.get("Customer_Details", \x7b\x7d).get("customer_ref")`: `none` when
`Customer_Details` is absent or lacks `customer_ref`.  `Link_Accounts = none`
models the key being absent or not list-typed (the `isinstance` check). -/
structure IncidentDict where
  Incident_Id : String
  Account_Num : Option String
  customer_ref : Option String
  Link_Accounts : Option (List LinkEntry)
  Incident_Status : Option String
  Status_Description : Option String
  updatedAt : Option Nat
deriving DecidableEq, Repr

/-- The terminal statuses excluded by the `$nin` clause of
`has_open_case_for_account`. -/
def terminalStatuses : List String :=
  ["Case Close", "Write-Off", "Abandoned", "Withdraw"]

/-- The query of `has_open_case_for_account`:
`{"account_no": incident_dict.get("Account_Num"),
  "case_current_status": {"$nin": [...]}}`.
Mongo `$nin` also matches documents lacking the field. -/
def caseOpenForQuery (acct : Option String) (c : CaseDoc) : Bool :=
  c.account_no == acct &&
    (match c.case_current_status with
     | none => true
     | some s => !(terminalStatuses.contains s))

/-- `has_open_case_for_account(incident_dict)`.  On a connection failure the
`except` block only logs, the `else` block is skipped and the function falls
off the end: Python returns `None`, modelled as `none`.  On a query failure it
returns `False`.  Otherwise it returns whether the count of matching
documents is positive. -/
def has_open_case_for_account (conn : ConnOutcome) (queryFault : Bool)
    (caseStore : List CaseDoc) (incident_dict : IncidentDict) :
    Option Bool :=
  match conn with
  | .constructFail => none
  | .pingFail => none
  | .ok =>
    if queryFault then
      some false
    else
      let countOfActive :=
        (caseStore.filter (caseOpenForQuery incident_dict.Account_Num)).length
      if countOfActive > 0 then some true else some false

/-- Python's `str.lower()`, character by character (ASCII case mapping, which
agrees with Python on every status string involved). -/
def pyLower (s : String) : String :=
  ⟨s.data.map Char.toLower⟩

/-- The body of the `for case in case_documents:` loop of
`link_accounts_from_open_cases`, acting on the current `Link_Accounts` list:
lower-case the status (`case.get("case_current_status", "").lower()`), skip
the case when it equals `"close"`, skip falsy `Account_Num`, and append
`{"Account_Num": account_num}` unless an entry with that `Account_Num`
already exists. -/
def linkStep (links : List LinkEntry) (c : CaseDoc) : List LinkEntry :=
  let status := pyLower (c.case_current_status.getD "")
  if status ≠ "close" then
    match c.Account_Num with
    | some account_num =>
      if account_num ≠ "" then
        if links.any (fun acc => acc.Account_Num == some account_num) then
          links
        else
          links ++ [{ Account_Num := some account_num }]
      else links
    | none => links
  else links

/-- The `isinstance(incident_dict.get("Link_Accounts"), list)` guard: when
`Link_Accounts` is not a list it is replaced by `[]`. -/
def normLinks (d : IncidentDict) : IncidentDict :=
  match d.Link_Accounts with
  | some _ => d
  | none => { d with Link_Accounts := some [] }

/-- The successful query path of `link_accounts_from_open_cases`: read
`customer_ref`, normalise `Link_Accounts`, run
`collection.find({"customer_ref": customer_ref})` and fold the loop body
over the matching case documents. -/
def linkRun (caseStore : List CaseDoc) (d : IncidentDict) : IncidentDict :=
  let customerRef := d.customer_ref
  let d1 := normLinks d
  let caseDocuments := caseStore.filter (fun c => c.customer_ref == customerRef)
  { d1 with Link_Accounts := some (caseDocuments.foldl linkStep (d1.Link_Accounts.getD [])) }

/-- The final `Link_Accounts` value computed by the loop of
`link_accounts_from_open_cases`: the loop body folded over the case
documents matching the incident's customer ref, starting from the
incident's current list (`[]` when absent or not a list). -/
def linkFold (caseStore : List CaseDoc) (d : IncidentDict) : List LinkEntry :=
  (caseStore.filter (fun c => c.customer_ref == d.customer_ref)).foldl
    linkStep (d.Link_Accounts.getD [])

/-- Return value of `link_accounts_from_open_cases`: the incident dict, or
the bare boolean `False` returned on a connection failure. -/
inductive LinkResult where
  | incident (d : IncidentDict)
  | bool (b : Bool)
deriving DecidableEq, Repr

/-- Result of one call to `link_accounts_from_open_cases`, with the
connection bookkeeping of its `finally` block. -/
structure LinkOutcome where
  result : LinkResult
  opened : Bool
  closeCount : Nat
deriving DecidableEq, Repr

/-- `link_accounts_from_open_cases(incident_dict)`.  A connection failure
returns `False` (line 112); a query failure is caught after the
`Link_Accounts` normalisation and returns the incident dict (line 157);
otherwise the loop links open-case accounts sharing the customer ref. -/
def link_accounts_from_open_cases (conn : ConnOutcome) (queryFault : Bool)
    (caseStore : List CaseDoc) (incident_dict : IncidentDict) :
    LinkOutcome :=
  match conn with
  | .constructFail =>
    { result := .bool false, opened := false, closeCount := 0 }
  | .pingFail =>
    { result := .bool false, opened := true, closeCount := 1 }
  | .ok =>
    if queryFault then
      { result := .incident (normLinks incident_dict), opened := true, closeCount := 1 }
    else
      { result := .incident (linkRun caseStore incident_dict),
        opened := true, closeCount := 1 }

/-- Modelled from the spec: the Admission Filter `get_modified_incident_dict`
(module `openAPI_IDC.coreFunctions.ModifyIncidentDict`, not part of the two
source files) is a black box with contract
`apply(incidentDict) -> incidentDict'` whose returned value always carries a
status field.  Because Python passes dicts by reference, a concrete filter
either mutates its argument in place and returns that same dict
(`inPlace = true`: after the call the caller's `incident_dict` variable and
`new_incident` hold one shared object whose value is `transform` of the old
one), or it leaves the argument untouched and returns a fresh dict
(`inPlace = false`). -/
structure FilterSpec where
  transform : IncidentDict → IncidentDict
  inPlace : Bool

/-- Whether an unexpected store exception (neither a duplicate key nor a
filter rejection) is raised during the query/insert phase of
`create_incident`, and if so at which operation. -/
inductive StoreFault where
  | noFault
  | indexFault
  | insertFault
deriving DecidableEq, Repr

/-- The `error` slot of `IncidentServiceResponse`: the string
`"Mongo DB connection error"`, the `DuplicateKeyError`, the
`NotModifiedResponse` carrying `Status_Description`, or a generic
exception. -/
inductive CreateError where
  | mongoConnectionError
  | duplicateKey
  | notModified (desc : Option String)
  | generic
deriving DecidableEq, Repr

/-- The `IncidentServiceResponse` class. -/
structure IncidentServiceResponse where
  success : Bool
  data : Option String
  error : Option CreateError
deriving DecidableEq, Repr

/-- Result of one call to `create_incident`: the response, the
`Incidents` collection afterwards, whether `create_index` ran, and the
connection bookkeeping of the `finally` block. -/
structure CreateResult where
  resp : IncidentServiceResponse
  incidents : List IncidentDict
  indexEnsured : Bool
  opened : Bool
  closeCount : Nat
deriving DecidableEq, Repr

/-- Lines 77–79: `incident_dict = incident.dict()` followed by
`incident_dict["Incident_Status"] = "Success"`. -/
def prepIncident (incident : IncidentDict) : IncidentDict :=
  { incident with Incident_Status := some "Success" }

/-- `create_incident(incident)` over an `Incidents` collection holding the
documents inserted so far, with a unique index on `Incident_Id` (so
`insert_one` raises `DuplicateKeyError` exactly when a stored document
carries the inserted document's `Incident_Id`).  `now` is the value of
`datetime.now()` at line 92.  The stamp
`incident_dict["updatedAt"] = datetime.now()` lands on the dict held by the
`incident_dict` variable; the document passed to `insert_one` is
`new_incident`, which carries the stamp only when the filter returned its
argument in place. -/
def create_incident (conn : ConnOutcome) (fault : StoreFault)
    (f : FilterSpec) (now : Nat) (incident : IncidentDict)
    (incidents : List IncidentDict) : CreateResult :=
  match conn with
  | .constructFail =>
    { resp := { success := false, data := none, error := some .mongoConnectionError },
      incidents := incidents, indexEnsured := false, opened := false, closeCount := 0 }
  | .pingFail =>
    { resp := { success := false, data := none, error := some .mongoConnectionError },
      incidents := incidents, indexEnsured := false, opened := true, closeCount := 1 }
  | .ok =>
    let incident_dict := prepIncident incident
    let new_incident := f.transform incident_dict
    if new_incident.Incident_Status == some "Error" then
      { resp := { success := false, data := none,
                  error := some (.notModified new_incident.Status_Description) },
        incidents := incidents, indexEnsured := false, opened := true, closeCount := 1 }
    else
      match fault with
      | .indexFault =>
        { resp := { success := false, data := none, error := some .generic },
          incidents := incidents, indexEnsured := false, opened := true, closeCount := 1 }
      | .insertFault =>
        { resp := { success := false, data := none, error := some .generic },
          incidents := incidents, indexEnsured := true, opened := true, closeCount := 1 }
      | .noFault =>
        let stamped :=
          { (if f.inPlace then new_incident else incident_dict) with updatedAt := some now }
        let inserted := if f.inPlace then stamped else new_incident
        if incidents.any (fun d => d.Incident_Id == inserted.Incident_Id) then
          { resp := { success := false, data := none, error := some .duplicateKey },
            incidents := incidents, indexEnsured := true, opened := true, closeCount := 1 }
        else
          { resp := { success := true, data := some stamped.Incident_Id, error := none },
            incidents := incidents ++ [inserted], indexEnsured := true, opened := true,
            closeCount := 1 }

/-- The account numbers present in a `Link_Accounts` list (entries lacking
the key contribute nothing). -/
def accountNums (links : List LinkEntry) : List String :=
  links.filterMap (fun acc => acc.Account_Num)

/-- Fixture: the spec scenario incident
`{IncidentId: "INC100", AccountNum: "AC1", CustomerRef: "CR1"}` with an
empty `Link_Accounts` list. -/
def sampleIncident : IncidentDict :=
  { Incident_Id := "INC100", Account_Num := some "AC1", customer_ref := some "CR1",
    Link_Accounts := some [], Incident_Status := none, Status_Description := none,
    updatedAt := none }

/-- Fixture: an incident arriving with `Link_Accounts` already holding two
entries for the same account number. -/
def dupLinksIncident : IncidentDict :=
  { sampleIncident with
      Link_Accounts := some [{ Account_Num := some "AC7" }, { Account_Num := some "AC7" }] }

/-- Fixture: an incident whose customer reference is absent. -/
def noRefIncident : IncidentDict :=
  { sampleIncident with customer_ref := none }

/-- Fixture: an open case of customer `CR1` on account `AC2`. -/
def openCaseCR1 : CaseDoc :=
  { account_no := some "AC2", customer_ref := some "CR1",
    case_current_status := some "Open", Account_Num := some "AC2" }

/-- Fixture: a case of customer `CR1` on account `AC3` whose status is
exactly `"Close"`. -/
def closeCaseCR1 : CaseDoc :=
  { account_no := some "AC3", customer_ref := some "CR1",
    case_current_status := some "Close", Account_Num := some "AC3" }

/-- Fixture: a case of customer `CR1` on account `AC3` whose status
contains `"close"` among other words (`"Case Close"`). -/
def caseCloseCaseCR1 : CaseDoc :=
  { account_no := some "AC3", customer_ref := some "CR1",
    case_current_status := some "Case Close", Account_Num := some "AC3" }

/-- Fixture: a case document whose `customer_ref` field is absent. -/
def nullRefCase : CaseDoc :=
  { account_no := some "AC9", customer_ref := none,
    case_current_status := some "Open", Account_Num := some "AC9" }

/-- Fixture: a filter that returns a fresh, unchanged copy of its
argument (it does not return the argument object itself). -/
def identityFilter : FilterSpec :=
  { transform := fun d => d, inPlace := false }

/-- Fixture: a filter that mutates nothing and returns its argument
object itself. -/
def mutatingFilter : FilterSpec :=
  { transform := fun d => d, inPlace := true }

/-- Fixture: a filter that returns a fresh record carrying a different
`Incident_Id`. -/
def renameFilter : FilterSpec :=
  { transform := fun d => { d with Incident_Id := "INC999" }, inPlace := false }

/-- Fixture: a filter that rejects the incident with an error status and a
description. -/
def rejectFilter : FilterSpec :=
  { transform := fun d =>
      { d with Incident_Status := some "Error",
               Status_Description := some "rejected by F1 rule" },
    inPlace := false }

example :
    linkStep [] { account_no := none, customer_ref := some "CR1",
                  case_current_status := some "Open", Account_Num := some "AC2" }
      = [{ Account_Num := some "AC2" }] := by decide

example :
    linkStep [] { account_no := none, customer_ref := some "CR1",
                  case_current_status := some "Close", Account_Num := some "AC3" }
      = [] := by decide

example :
    linkStep [] { account_no := none, customer_ref := some "CR1",
                  case_current_status := some "Case Close", Account_Num := some "AC3" }
      = [{ Account_Num := some "AC3" }] := by decide

theorem any_account_iff (links : List LinkEntry) (a : String) :
    links.any (fun acc => acc.Account_Num == some a) = true ↔ a ∈ accountNums links := by
  simp [accountNums, List.any_eq_true, List.mem_filterMap]

theorem accountNums_append (l1 l2 : List LinkEntry) :
    accountNums (l1 ++ l2) = accountNums l1 ++ accountNums l2 := by
  simp [accountNums]

theorem linkStep_eq_or_append (links : List LinkEntry) (c : CaseDoc) :
    linkStep links c = links ∨
      ∃ a, c.Account_Num = some a ∧ a ≠ "" ∧
        links.any (fun acc => acc.Account_Num == some a) = false ∧
        linkStep links c = links ++ [{ Account_Num := some a }] := by
  by_cases hstat : pyLower (c.case_current_status.getD "") = "close"
  · left; simp [linkStep, hstat]
  · cases hA : c.Account_Num with
    | none => left; simp [linkStep, hstat, hA]
    | some a =>
      by_cases hne : a = ""
      · left; simp [linkStep, hstat, hA, hne]
      · by_cases hany : links.any (fun acc => acc.Account_Num == some a) = true
        · left; simp [linkStep, hstat, hA, hne, hany]
        · right
          refine ⟨a, rfl, hne, by simpa using hany, ?_⟩
          simp [linkStep, hstat, hA, hne, hany]

theorem mem_accountNums_linkStep {links : List LinkEntry} {a : String}
    (c : CaseDoc) (h : a ∈ accountNums links) : a ∈ accountNums (linkStep links c) := by
  rcases linkStep_eq_or_append links c with heq | ⟨b, _, _, _, heq⟩
  · rw [heq]; exact h
  · rw [heq, accountNums_append]
    exact List.mem_append_left _ h

theorem mem_accountNums_foldl {links : List LinkEntry} {a : String}
    (cs : List CaseDoc) (h : a ∈ accountNums links) :
    a ∈ accountNums (cs.foldl linkStep links) := by
  induction cs generalizing links with
  | nil => simpa using h
  | cons c rest ih => exact ih (mem_accountNums_linkStep c h)

theorem linkStep_mem_of_linkable {links : List LinkEntry} {c : CaseDoc} {a : String}
    (hstat : pyLower (c.case_current_status.getD "") ≠ "close")
    (hacc : c.Account_Num = some a) (hne : a ≠ "") :
    a ∈ accountNums (linkStep links c) := by
  by_cases hany : links.any (fun acc => acc.Account_Num == some a) = true
  · have h1 : linkStep links c = links := by
      simp [linkStep, hstat, hacc, hne, hany]
    rw [h1]
    exact (any_account_iff links a).mp hany
  · have h1 : linkStep links c = links ++ [{ Account_Num := some a }] := by
      simp [linkStep, hstat, hacc, hne, hany]
    rw [h1, accountNums_append]
    exact List.mem_append_right _ (by simp [accountNums])

theorem foldl_mem_of_linkable {links : List LinkEntry} {c : CaseDoc} {a : String}
    (cs : List CaseDoc) (hc : c ∈ cs)
    (hstat : pyLower (c.case_current_status.getD "") ≠ "close")
    (hacc : c.Account_Num = some a) (hne : a ≠ "") :
    a ∈ accountNums (cs.foldl linkStep links) := by
  induction cs generalizing links with
  | nil => cases hc
  | cons c0 rest ih =>
    rcases List.mem_cons.mp hc with rfl | hmem
    · exact mem_accountNums_foldl rest (linkStep_mem_of_linkable hstat hacc hne)
    · exact ih hmem

theorem linkStep_id_of_mem {links : List LinkEntry} {c : CaseDoc}
    (h : ∀ a, pyLower (c.case_current_status.getD "") ≠ "close" →
      c.Account_Num = some a → a ≠ "" → a ∈ accountNums links) :
    linkStep links c = links := by
  rcases linkStep_eq_or_append links c with heq | ⟨a, hacc, hne, hany, heq⟩
  · exact heq
  · by_cases hstat : pyLower (c.case_current_status.getD "") = "close"
    · simp [linkStep, hstat]
    · exact absurd ((any_account_iff links a).mpr (h a hstat hacc hne)) (by simp [hany])

theorem foldl_linkStep_id {links : List LinkEntry} (cs : List CaseDoc)
    (h : ∀ c ∈ cs, ∀ a, pyLower (c.case_current_status.getD "") ≠ "close" →
      c.Account_Num = some a → a ≠ "" → a ∈ accountNums links) :
    cs.foldl linkStep links = links := by
  induction cs with
  | nil => rfl
  | cons c0 rest ih =>
    have h0 : linkStep links c0 = links :=
      linkStep_id_of_mem (h c0 (List.mem_cons_self c0 rest))
    simp only [List.foldl_cons, h0]
    exact ih (fun c hc => h c (List.mem_cons_of_mem c0 hc))

theorem foldl_linkStep_idem (links : List LinkEntry) (cs : List CaseDoc) :
    cs.foldl linkStep (cs.foldl linkStep links) = cs.foldl linkStep links := by
  refine foldl_linkStep_id cs (fun c hc a hstat hacc hne => ?_)
  exact foldl_mem_of_linkable cs hc hstat hacc hne

theorem accountNums_nodup_linkStep {links : List LinkEntry} (c : CaseDoc)
    (h : (accountNums links).Nodup) : (accountNums (linkStep links c)).Nodup := by
  rcases linkStep_eq_or_append links c with heq | ⟨a, _, _, hany, heq⟩
  · rw [heq]; exact h
  · rw [heq, accountNums_append]
    have hnot : a ∉ accountNums links := fun hmem => by
      rw [(any_account_iff links a).mpr hmem] at hany
      cases hany
    have hsing : accountNums [{ Account_Num := some a }] = [a] := by
      simp [accountNums]
    rw [hsing]
    refine List.Nodup.append h (List.nodup_singleton a) ?_
    intro x hx hmem
    rw [List.mem_singleton] at hmem
    exact hnot (hmem ▸ hx)

theorem accountNums_nodup_foldl {links : List LinkEntry} (cs : List CaseDoc)
    (h : (accountNums links).Nodup) : (accountNums (cs.foldl linkStep links)).Nodup := by
  induction cs generalizing links with
  | nil => exact h
  | cons c rest ih => exact ih (accountNums_nodup_linkStep c h)

theorem prepIncident_id (i : IncidentDict) :
    (prepIncident i).Incident_Id = i.Incident_Id := rfl

theorem create_incident_insert_path (f : FilterSpec) (now : Nat)
    (incident : IncidentDict) (incidents : List IncidentDict)
    (hstatus : (f.transform (prepIncident incident)).Incident_Status ≠ some "Error")
    (hnodup : ∀ d ∈ incidents,
      d.Incident_Id ≠ (f.transform (prepIncident incident)).Incident_Id) :
    create_incident .ok .noFault f now incident incidents =
      { resp := { success := true,
                  data := some (if f.inPlace
                    then (f.transform (prepIncident incident)).Incident_Id
                    else incident.Incident_Id),
                  error := none },
        incidents := incidents ++ [if f.inPlace
          then { f.transform (prepIncident incident) with updatedAt := some now }
          else f.transform (prepIncident incident)],
        indexEnsured := true, opened := true, closeCount := 1 } := by
  have hany : (incidents.any (fun d =>
      d.Incident_Id == (f.transform (prepIncident incident)).Incident_Id)) = false := by
    rw [List.any_eq_false]
    intro d hd
    simpa using hnodup d hd
  cases hip : f.inPlace <;>
    simp [create_incident, hstatus, hip, hany, prepIncident_id]

theorem create_incident_duplicate_path (f : FilterSpec) (now : Nat)
    (incident : IncidentDict) (incidents : List IncidentDict)
    (hstatus : (f.transform (prepIncident incident)).Incident_Status ≠ some "Error")
    (hdup : (incidents.any (fun d =>
      d.Incident_Id == (f.transform (prepIncident incident)).Incident_Id)) = true) :
    create_incident .ok .noFault f now incident incidents =
      { resp := { success := false, data := none, error := some .duplicateKey },
        incidents := incidents, indexEnsured := true, opened := true,
        closeCount := 1 } := by
  cases hip : f.inPlace <;>
    simp [create_incident, hstatus, hip, hdup]

theorem linkRun_eq (caseStore : List CaseDoc) (d : IncidentDict) :
    linkRun caseStore d = { d with Link_Accounts := some (linkFold caseStore d) } := by
  obtain ⟨i, a, cr, la, st, sd, ua⟩ := d
  cases la <;> rfl

theorem linkRun_idem (caseStore : List CaseDoc) (d : IncidentDict) :
    linkRun caseStore (linkRun caseStore d) = linkRun caseStore d := by
  rw [linkRun_eq caseStore d]
  rw [linkRun_eq caseStore]
  simp [linkFold, foldl_linkStep_idem]

theorem caseOpenForQuery_iff (acct : Option String) (c : CaseDoc) :
    caseOpenForQuery acct c = true ↔
      c.account_no = acct ∧ ∀ s, c.case_current_status = some s → s ∉ terminalStatuses := by
  unfold caseOpenForQuery
  cases hs : c.case_current_status <;> simp [hs]

theorem open_case_exists_iff (caseStore : List CaseDoc) (d : IncidentDict) :
    (0 < (caseStore.filter (caseOpenForQuery d.Account_Num)).length) ↔
      ∃ c ∈ caseStore, c.account_no = d.Account_Num ∧
        ∀ s, c.case_current_status = some s → s ∉ terminalStatuses := by
  rw [List.length_pos]
  constructor
  · intro h
    obtain ⟨c, hc⟩ := List.exists_mem_of_ne_nil _ h
    rw [List.mem_filter] at hc
    exact ⟨c, hc.1, (caseOpenForQuery_iff _ _).mp hc.2⟩
  · rintro ⟨c, hc, hp⟩ hnil
    have hmem : c ∈ caseStore.filter (caseOpenForQuery d.Account_Num) :=
      List.mem_filter.mpr ⟨hc, (caseOpenForQuery_iff _ _).mpr hp⟩
    rw [hnil] at hmem
    cases hmem

/-- C2: if the admission filter returns a record whose status field is
`"Error"`, `create_incident` inserts no document (the `Incidents` collection
is unchanged and `create_index` never runs, so the rejection happens strictly
before index creation and insertion) and returns an unsuccessful response
carrying the filter record's `Status_Description`. -/
theorem create_incident_filter_reject_short_circuit (fault : StoreFault)
    (f : FilterSpec) (now : Nat) (incident : IncidentDict)
    (incidents : List IncidentDict)
    (hstatus : (f.transform (prepIncident incident)).Incident_Status = some "Error") :
    create_incident .ok fault f now incident incidents =
      { resp := { success := false, data := none,
                  error := some (.notModified
                    (f.transform (prepIncident incident)).Status_Description) },
        incidents := incidents, indexEnsured := false, opened := true,
        closeCount := 1 } := by
  simp [create_incident, hstatus]

theorem create_incident_filter_reject_short_circuit_witness :
    create_incident .ok .noFault rejectFilter 3 sampleIncident [] =
      { resp := { success := false, data := none,
                  error := some (.notModified (some "rejected by F1 rule")) },
        incidents := [], indexEnsured := false, opened := true,
        closeCount := 1 } :=
  create_incident_filter_reject_short_circuit .noFault rejectFilter 3 sampleIncident [] rfl

theorem create_incident_ok_bookkeeping (fault : StoreFault) (f : FilterSpec)
    (now : Nat) (incident : IncidentDict) (incidents : List IncidentDict) :
    (create_incident .ok fault f now incident incidents).closeCount = 1 ∧
    (create_incident .ok fault f now incident incidents).opened = true := by
  constructor <;>
  · simp only [create_incident]
    split
    · rfl
    · split
      · rfl
      · rfl
      · split_ifs <;> rfl

/-- C3: on every execution path of `create_incident` (success, connection
failure at construction or at ping, filter rejection, duplicate identifier,
index or insert fault) and of `link_accounts_from_open_cases` (success,
connection failure, query failure), the client connection is closed exactly
once when it was opened and `close` is never called otherwise. -/
theorem connection_released_exactly_once (conn : ConnOutcome) (fault : StoreFault)
    (f : FilterSpec) (now : Nat) (incident : IncidentDict)
    (incidents : List IncidentDict) (queryFault : Bool)
    (caseStore : List CaseDoc) (d : IncidentDict) :
    ((create_incident conn fault f now incident incidents).closeCount =
      if (create_incident conn fault f now incident incidents).opened then 1 else 0) ∧
    ((link_accounts_from_open_cases conn queryFault caseStore d).closeCount =
      if (link_accounts_from_open_cases conn queryFault caseStore d).opened
        then 1 else 0) := by
  constructor
  · cases conn with
    | constructFail => rfl
    | pingFail => rfl
    | ok =>
      have h := create_incident_ok_bookkeeping fault f now incident incidents
      rw [h.1, h.2]
      rfl
  · cases conn <;> cases queryFault <;> simp [link_accounts_from_open_cases]

/-- C5: with a live connection and a fault-free query,
`has_open_case_for_account` answers `True` exactly when the store holds at
least one case for the incident's account number whose status is outside the
terminal set, and `False` when there is no such case. -/
theorem has_open_case_true_false_iff (caseStore : List CaseDoc) (d : IncidentDict) :
    (has_open_case_for_account .ok false caseStore d = some true ↔
      ∃ c ∈ caseStore, c.account_no = d.Account_Num ∧
        ∀ s, c.case_current_status = some s → s ∉ terminalStatuses) ∧
    (has_open_case_for_account .ok false caseStore d = some false ↔
      ¬ ∃ c ∈ caseStore, c.account_no = d.Account_Num ∧
        ∀ s, c.case_current_status = some s → s ∉ terminalStatuses) := by
  have hchar := open_case_exists_iff caseStore d
  by_cases hpos : 0 < (caseStore.filter (caseOpenForQuery d.Account_Num)).length
  · have hex := hchar.mp hpos
    simp [has_open_case_for_account, hpos, hex]
  · have hne := (not_congr hchar).mp hpos
    simp [has_open_case_for_account, hpos, hne]

theorem has_open_case_true_false_iff_witness :
    has_open_case_for_account .ok false [openCaseCR1]
      { sampleIncident with Account_Num := some "AC2" } = some true :=
  ((has_open_case_true_false_iff [openCaseCR1]
      { sampleIncident with Account_Num := some "AC2" }).1).mpr
    ⟨openCaseCR1, List.mem_singleton.mpr rfl, rfl, by
      intro s hs
      rw [show openCaseCR1.case_current_status = some "Open" from rfl,
        Option.some_inj] at hs
      subst hs
      decide⟩

/-- C7: on a connection failure (whether `MongoClient` construction or the
ping raises) `link_accounts_from_open_cases` returns the bare boolean
`False`, not the incident record; on a query failure it returns the incident
record with no new links. -/
theorem link_accounts_failure_path_returns (caseStore : List CaseDoc)
    (d : IncidentDict) :
    (link_accounts_from_open_cases .constructFail false caseStore d).result
        = .bool false ∧
    (link_accounts_from_open_cases .pingFail false caseStore d).result
        = .bool false ∧
    (link_accounts_from_open_cases .ok true caseStore d).result
        = .incident (normLinks d) :=
  ⟨rfl, rfl, rfl⟩

/-- C1: two admission calls carrying the same `Incident_Id` (with an
identifier-preserving filter accepting both and a store not already holding
that identifier): the first call succeeds, and the second returns an
unsuccessful response carrying the duplicate-key error while leaving the
`Incidents` collection exactly as the first insert left it (no retry, no
further mutation). -/
theorem create_incident_duplicate_id_no_retry (f : FilterSpec) (t1 t2 : Nat)
    (i1 i2 : IncidentDict) (s0 : List IncidentDict)
    (hid : i2.Incident_Id = i1.Incident_Id)
    (hpres : ∀ d, (f.transform d).Incident_Id = d.Incident_Id)
    (h1 : (f.transform (prepIncident i1)).Incident_Status ≠ some "Error")
    (h2 : (f.transform (prepIncident i2)).Incident_Status ≠ some "Error")
    (h0 : ∀ d ∈ s0, d.Incident_Id ≠ i1.Incident_Id) :
    (create_incident .ok .noFault f t1 i1 s0).resp.success = true ∧
    (create_incident .ok .noFault f t2 i2
        (create_incident .ok .noFault f t1 i1 s0).incidents).resp =
      { success := false, data := none, error := some .duplicateKey } ∧
    (create_incident .ok .noFault f t2 i2
        (create_incident .ok .noFault f t1 i1 s0).incidents).incidents =
      (create_incident .ok .noFault f t1 i1 s0).incidents := by
  have hid1 : (f.transform (prepIncident i1)).Incident_Id = i1.Incident_Id := by
    rw [hpres, prepIncident_id]
  have hid2 : (f.transform (prepIncident i2)).Incident_Id = i1.Incident_Id := by
    rw [hpres, prepIncident_id, hid]
  have hnodup : ∀ d ∈ s0,
      d.Incident_Id ≠ (f.transform (prepIncident i1)).Incident_Id := by
    intro d hd
    rw [hid1]
    exact h0 d hd
  have e1 := create_incident_insert_path f t1 i1 s0 h1 hnodup
  have hinsid : (if f.inPlace
      then { f.transform (prepIncident i1) with updatedAt := some t1 }
      else f.transform (prepIncident i1)).Incident_Id = i1.Incident_Id := by
    cases hip : f.inPlace <;> simp [hid1]
  have hdup2 : (((create_incident .ok .noFault f t1 i1 s0).incidents).any
      (fun d => d.Incident_Id == (f.transform (prepIncident i2)).Incident_Id))
      = true := by
    rw [e1]
    have hx : ((if f.inPlace
        then { f.transform (prepIncident i1) with updatedAt := some t1 }
        else f.transform (prepIncident i1)).Incident_Id ==
          (f.transform (prepIncident i2)).Incident_Id) = true := by
      rw [beq_iff_eq, hinsid, hid2]
    simp [List.any_append, hx]
  have e2 := create_incident_duplicate_path f t2 i2
    (create_incident .ok .noFault f t1 i1 s0).incidents h2 hdup2
  exact ⟨by rw [e1], by rw [e2], by rw [e2]⟩

theorem create_incident_duplicate_id_no_retry_witness :
    (create_incident .ok .noFault identityFilter 1 sampleIncident []).resp.success
        = true ∧
    (create_incident .ok .noFault identityFilter 2 sampleIncident
        (create_incident .ok .noFault identityFilter 1 sampleIncident []).incidents).resp =
      { success := false, data := none, error := some .duplicateKey } ∧
    (create_incident .ok .noFault identityFilter 2 sampleIncident
        (create_incident .ok .noFault identityFilter 1 sampleIncident []).incidents).incidents =
      (create_incident .ok .noFault identityFilter 1 sampleIncident []).incidents :=
  create_incident_duplicate_id_no_retry identityFilter 1 2 sampleIncident
    sampleIncident [] rfl (fun _ => rfl) (by decide) (by decide) (by simp)

/-- C4 counterexample: the claim quantifies over every incident, but an
incident arriving with `Link_Accounts` already holding two entries for the
same account number keeps both entries after propagation (the loop only
guards new appends): after propagation the list still contains two entries
with `Account_Num = "AC7"`. -/
theorem link_propagation_preexisting_dup :
    (link_accounts_from_open_cases .ok false [] dupLinksIncident).result =
      .incident dupLinksIncident ∧
    ¬ (accountNums (dupLinksIncident.Link_Accounts.getD [])).Nodup := by
  exact ⟨by decide, by decide⟩

/-- C4 (amended): for every incident whose incoming `Link_Accounts` carries
no duplicate account numbers (in particular a fresh or non-list one) and
every candidate case sequence, the propagated `Link_Accounts` contains no
two entries with the same `Account_Num`, and running the propagation a
second time over the same candidate set changes nothing. -/
theorem link_propagation_nodup_and_idempotent (caseStore : List CaseDoc)
    (d : IncidentDict)
    (h : (accountNums (d.Link_Accounts.getD [])).Nodup) :
    (link_accounts_from_open_cases .ok false caseStore d).result =
      .incident (linkRun caseStore d) ∧
    (linkRun caseStore d).Link_Accounts = some (linkFold caseStore d) ∧
    (accountNums (linkFold caseStore d)).Nodup ∧
    linkRun caseStore (linkRun caseStore d) = linkRun caseStore d := by
  refine ⟨rfl, by rw [linkRun_eq], ?_, linkRun_idem caseStore d⟩
  exact accountNums_nodup_foldl _ h

theorem link_propagation_nodup_and_idempotent_witness :
    (link_accounts_from_open_cases .ok false [openCaseCR1] sampleIncident).result =
      .incident (linkRun [openCaseCR1] sampleIncident) ∧
    (linkRun [openCaseCR1] sampleIncident).Link_Accounts =
      some (linkFold [openCaseCR1] sampleIncident) ∧
    (accountNums (linkFold [openCaseCR1] sampleIncident)).Nodup ∧
    linkRun [openCaseCR1] (linkRun [openCaseCR1] sampleIncident) =
      linkRun [openCaseCR1] sampleIncident :=
  link_propagation_nodup_and_idempotent [openCaseCR1] sampleIncident (by decide)

/-- C6 counterexample: a case whose status is `"Case Close"` — a string
containing `"close"` case-insensitively as a substring among other words —
is NOT excluded by the customer-linking path: its account `AC3` is
linked. -/
theorem close_substring_case_is_linked :
    (link_accounts_from_open_cases .ok false [caseCloseCaseCR1] sampleIncident).result =
      .incident { sampleIncident with
        Link_Accounts := some [{ Account_Num := some "AC3" }] } := by
  decide

/-- C6 (amended): in the customer-linking path a case is excluded exactly
when its lower-cased status is equal to the single token `"close"` (full
equality, not substring matching); any case with a different lower-cased
status, truthy account number and no existing entry is linked. -/
theorem close_exclusion_is_exact_equality (links : List LinkEntry) (c : CaseDoc) :
    (pyLower (c.case_current_status.getD "") = "close" →
      linkStep links c = links) ∧
    (∀ a, pyLower (c.case_current_status.getD "") ≠ "close" →
      c.Account_Num = some a → a ≠ "" →
      links.any (fun acc => acc.Account_Num == some a) = false →
      linkStep links c = links ++ [{ Account_Num := some a }]) := by
  constructor
  · intro hstat
    simp [linkStep, hstat]
  · intro a hstat hacc hne hany
    simp [linkStep, hstat, hacc, hne, hany]

theorem close_exclusion_is_exact_equality_witness :
    linkStep [] closeCaseCR1 = [] ∧
    linkStep [] caseCloseCaseCR1 = [] ++ [{ Account_Num := some "AC3" }] :=
  ⟨(close_exclusion_is_exact_equality [] closeCaseCR1).1 (by decide),
   (close_exclusion_is_exact_equality [] caseCloseCaseCR1).2 "AC3"
     (by decide) rfl (by decide) rfl⟩

/-- C8 counterexample: for an incident with no customer reference the query
IS issued — with a null customer ref — and it matches a stored case that
also lacks `customer_ref`, so an entry (`AC9`) is added to `Link_Accounts`
instead of the lookup returning an empty result immediately. -/
theorem absent_ref_query_links_null_ref_case :
    noRefIncident.customer_ref = none ∧
    (link_accounts_from_open_cases .ok false [nullRefCase] noRefIncident).result =
      .incident { noRefIncident with
        Link_Accounts := some [{ Account_Num := some "AC9" }] } := by
  exact ⟨rfl, by decide⟩

/-- C8 (amended): when the incident's customer reference is absent the
lookup still issues the find, with a null customer reference; it can
therefore link accounts of stored cases that likewise lack `customer_ref`,
and only when every stored case has a customer reference present does the
call leave `Link_Accounts` without new entries. -/
theorem absent_customer_ref_still_queries (caseStore : List CaseDoc)
    (d : IncidentDict)
    (href : d.customer_ref = none)
    (hstore : ∀ c ∈ caseStore, c.customer_ref ≠ none) :
    (link_accounts_from_open_cases .ok false caseStore d).result =
      .incident { d with Link_Accounts := some (d.Link_Accounts.getD []) } := by
  have hfilter : caseStore.filter (fun c => c.customer_ref == d.customer_ref) = [] :=
    List.filter_eq_nil_iff.mpr (fun c hc => by simp [href, hstore c hc])
  have hfold : linkFold caseStore d = d.Link_Accounts.getD [] := by
    unfold linkFold
    rw [hfilter]
    rfl
  show LinkResult.incident (linkRun caseStore d) = _
  rw [linkRun_eq, hfold]

theorem absent_customer_ref_still_queries_witness :
    (link_accounts_from_open_cases .ok false [openCaseCR1] noRefIncident).result =
      .incident { noRefIncident with
        Link_Accounts := some (noRefIncident.Link_Accounts.getD []) } :=
  absent_customer_ref_still_queries [openCaseCR1] noRefIncident rfl (by decide)

/-- C9 counterexample: with a filter returning a fresh unchanged copy of
its argument, a successful admission at time 5 inserts a document whose
`updatedAt` is still absent — the inserted record does not carry the
admission-time stamp. -/
theorem inserted_document_missing_stamp :
    (create_incident .ok .noFault identityFilter 5 sampleIncident []).resp.success
      = true ∧
    (create_incident .ok .noFault identityFilter 5 sampleIncident []).incidents =
      [prepIncident sampleIncident] ∧
    (prepIncident sampleIncident).updatedAt ≠ some 5 := by
  exact ⟨by decide, by decide, by decide⟩

/-- C9 (amended): the `updatedAt = now` stamp of line 92 lands on the dict
held by the `incident_dict` variable, not on the inserted document as such:
the document handed to `insert_one` is the filter's returned record, which
carries the admission-time stamp exactly when the filter returned its
argument object mutated in place; a filter returning a fresh record has its
output inserted unchanged, without the stamp. -/
theorem updatedAt_stamp_on_prefilter_dict (f : FilterSpec) (now : Nat)
    (incident : IncidentDict) (incidents : List IncidentDict)
    (hstatus : (f.transform (prepIncident incident)).Incident_Status ≠ some "Error")
    (hnodup : ∀ d ∈ incidents,
      d.Incident_Id ≠ (f.transform (prepIncident incident)).Incident_Id) :
    (f.inPlace = true →
      (create_incident .ok .noFault f now incident incidents).incidents =
        incidents ++ [{ f.transform (prepIncident incident) with updatedAt := some now }]) ∧
    (f.inPlace = false →
      (create_incident .ok .noFault f now incident incidents).incidents =
        incidents ++ [f.transform (prepIncident incident)]) := by
  have e := create_incident_insert_path f now incident incidents hstatus hnodup
  constructor
  · intro hip
    rw [e]
    simp [hip]
  · intro hip
    rw [e]
    simp [hip]

theorem updatedAt_stamp_on_prefilter_dict_witness :
    (create_incident .ok .noFault mutatingFilter 5 sampleIncident []).incidents =
      [] ++ [{ mutatingFilter.transform (prepIncident sampleIncident) with
        updatedAt := some 5 }] ∧
    (create_incident .ok .noFault identityFilter 5 sampleIncident []).incidents =
      [] ++ [identityFilter.transform (prepIncident sampleIncident)] :=
  ⟨(updatedAt_stamp_on_prefilter_dict mutatingFilter 5 sampleIncident []
      (by decide) (by simp)).1 rfl,
   (updatedAt_stamp_on_prefilter_dict identityFilter 5 sampleIncident []
      (by decide) (by simp)).2 rfl⟩

/-- C10: on a successful admission whose filter returns a fresh record, the
incident identifier in the response is read from the pre-filter
`incident_dict` (the original incident's `Incident_Id`), even though the
document persisted is the filter's returned record, which may carry a
different `Incident_Id`. -/
theorem response_id_from_prefilter_dict (f : FilterSpec) (now : Nat)
    (incident : IncidentDict) (incidents : List IncidentDict)
    (hip : f.inPlace = false)
    (hstatus : (f.transform (prepIncident incident)).Incident_Status ≠ some "Error")
    (hnodup : ∀ d ∈ incidents,
      d.Incident_Id ≠ (f.transform (prepIncident incident)).Incident_Id) :
    (create_incident .ok .noFault f now incident incidents).resp.success = true ∧
    (create_incident .ok .noFault f now incident incidents).resp.data =
      some incident.Incident_Id ∧
    (create_incident .ok .noFault f now incident incidents).incidents =
      incidents ++ [f.transform (prepIncident incident)] := by
  have e := create_incident_insert_path f now incident incidents hstatus hnodup
  refine ⟨by rw [e], ?_, ?_⟩
  · rw [e]
    simp [hip]
  · rw [e]
    simp [hip]

theorem response_id_from_prefilter_dict_witness :
    (create_incident .ok .noFault renameFilter 7 sampleIncident []).resp.success
        = true ∧
    (create_incident .ok .noFault renameFilter 7 sampleIncident []).resp.data =
      some sampleIncident.Incident_Id ∧
    (create_incident .ok .noFault renameFilter 7 sampleIncident []).incidents =
      [] ++ [renameFilter.transform (prepIncident sampleIncident)] :=
  response_id_from_prefilter_dict renameFilter 7 sampleIncident [] rfl
    (by decide) (by simp)
